import Mathlib

/-!
# Verification of `BatchExportMeshes.py`

A shallow embedding of the Blender add-on `BatchExportMeshes.py` (a batch
mesh/armature exporter) together with proofs about its behaviour.

The scene state (objects with a name, a type string, a location and a
selection flag, plus the active object) is modelled explicitly; the host
application's exporter operators are modelled as events recorded in a trace,
each paired with the scene state at the moment of the call.  Host-provided
inputs (`os.path.isdir`, `bpy.path.clean_name`, the directory of the saved
blend file) are parameters of the embedded functions.
-/

/-- A 3-dimensional location vector (`mathutils.Vector`).  The script only
copies, zeroes and restores locations, so the component type only needs
decidable equality; integers are used. -/
structure Vec3 where
  x : Int
  y : Int
  z : Int
deriving DecidableEq, Repr

/-- One Blender scene object: its name, its type string (`"MESH"`,
`"ARMATURE"`, `"LIGHT"`, ...), its location, and whether it is selected. -/
structure SceneObj where
  name : String
  ty : String
  loc : Vec3
  selected : Bool
deriving DecidableEq, Repr

/-- The scene state the script reads and mutates: the objects (identified by
their index into this list) and the index of the active object, if any. -/
structure Scene where
  objs : List SceneObj
  active : Option Nat
deriving DecidableEq, Repr

/-- Apply `f` to the object at index `i` (an attribute assignment such as
`obj.select_set(...)` or `obj.location = ...` on the object referenced by
`obj`).  Out-of-range indices leave the scene unchanged (unreachable for the
references the script iterates over). -/
def modifyObj (s : Scene) (i : Nat) (f : SceneObj → SceneObj) : Scene :=
  match s.objs[i]? with
  | some o => { s with objs := s.objs.set i (f o) }
  | none => s

/-- `obj.select_set(b)` for the object at index `i`. -/
def setSel (s : Scene) (i : Nat) (b : Bool) : Scene :=
  modifyObj s i (fun o => { o with selected := b })

/-- `obj.location = v` for the object at index `i`. -/
def setLoc (s : Scene) (i : Nat) (v : Vec3) : Scene :=
  modifyObj s i (fun o => { o with loc := v })

/-- `bpy.ops.object.select_all(action='DESELECT')`: clear every selection
flag; the active object is not changed. -/
def deselectAll (s : Scene) : Scene :=
  { s with objs := s.objs.map (fun o => { o with selected := false }) }

/-- `bpy.context.selected_objects`: the indices of the selected objects, in
index order. -/
def selectedIndices (s : Scene) : List Nat :=
  (List.range s.objs.length).filter (fun i =>
    match s.objs[i]? with
    | some o => o.selected
    | none => false)

/-- The closed set of values of the `file_type` enum property. -/
inductive FileType
  | FBX
  | GLTF
  | OBJ
  | DAE
deriving DecidableEq, Repr

/-- A call to one of the host exporter operators, with the keyword arguments
the script passes. -/
inductive ExporterCall
  | fbx (filepath : String) (use_selection : Bool)
  | exportObj (filepath : String) (use_selection : Bool)
  | gltf (filepath : String) (use_selection : Bool) (export_format : String)
deriving DecidableEq, Repr

/-- The `filepath` keyword argument of an exporter call. -/
def ExporterCall.filepath : ExporterCall → String
  | .fbx p _ => p
  | .exportObj p _ => p
  | .gltf p _ _ => p

/-- `b.startswith('/')` on a Python string. -/
def startsWithSlash (b : String) : Bool :=
  match b.toList with
  | [] => false
  | c :: _ => c = '/'

/-- `a.endswith('/')` on a Python string. -/
def endsWithSlash (a : String) : Bool :=
  match a.toList.getLast? with
  | some c => c = '/'
  | none => false

/-- POSIX `os.path.join(a, b)`: `b` if it is absolute, otherwise `a ++ b`
when `a` is empty or already ends with the separator, otherwise
`a ++ "/" ++ b`. -/
def ospath_join (a b : String) : String :=
  if startsWithSlash b then b
  else if a = "" || endsWithSlash a then a ++ b
  else a ++ "/" ++ b

/-- `directory.rfind(c)` on the character list of a Python string: the
greatest index holding `c`, or `none` (Python returns `-1`). -/
def list_rfind : List Char → Char → Option Nat
  | [], _ => none
  | a :: as, c =>
    match list_rfind as c with
    | some i => some (i + 1)
    | none => if a = c then some 0 else none

/-- Lines 63–68 of `BatchExport.execute`: take `self.properties.filepath`
and remove everything from the last `'\'` on (`rfind('\\')` followed by the
slice `directory[:last_slash]`); if there is no backslash the path is kept
unchanged. -/
def strip_file_part (directory : String) : String :=
  match list_rfind directory.toList '\\' with
  | some i => ((directory.toList).take i).asString
  | none => directory

/-- The exporter call issued by the `match file_type:` statement
(lines 123–131), given the extension-less output path `fn`.  The `DAE` arm
calls the FBX exporter with a `".dae"` path, exactly as the source does. -/
def mkCall (file_type : FileType) (fn : String) : ExporterCall :=
  match file_type with
  | .FBX => .fbx (fn ++ ".fbx") true
  | .OBJ => .exportObj (fn ++ ".obj") true
  | .GLTF => .gltf (fn ++ ".gltf") true "GLTF_SEPARATE"
  | .DAE => .fbx (fn ++ ".dae") true

/-- The body of the `for obj in selection:` loop for the object at index `i`.
The state is the scene paired with the trace of exporter calls made so far;
each trace entry also records the scene at the moment of the call.
`clean_name` is the host's `bpy.path.clean_name`. -/
def processObj (freeze_locations : Bool) (file_type : FileType)
    ( mesh_name_prefix basedir : String) (clean_name : String → String)
    (st : Scene × List (ExporterCall × Scene)) (i : Nat) :
    Scene × List (ExporterCall × Scene) :=
  match st.1.objs[i]? with
  | none => st
  | some o =>
    if o.ty ≠ "MESH" ∧ o.ty ≠ "ARMATURE" then st
    else
      let s := setSel st.1 i true
      let saved_location := o.loc
      let s := if freeze_locations then setLoc s i ⟨0, 0, 0⟩ else s
      let s := { s with active := some i }
      let name := clean_name o.name
      let name := if mesh_name_prefix ≠ "" then mesh_name_prefix ++ name else name
      let fn := ospath_join basedir name
      let call := mkCall file_type fn
      let tr := st.2 ++ [(call, s)]
      let s := setSel s i false
      let s := setLoc s i saved_location
      (s, tr)

/-- The result of one invocation of `batch_export_meshes`: the final scene,
the trace of exporter calls (each with the scene at call time), and the
message of the exception raised, if any (`none` means the function returned
normally). -/
structure BatchResult where
  scene : Scene
  trace : List (ExporterCall × Scene)
  error : Option String
deriving DecidableEq, Repr

/-- `batch_export_meshes(context, directory, freeze_locations, file_type,
mesh_name_prefix)` (lines 78–142).  `blend_dirname` stands for
`os.path.dirname(bpy.data.filepath)` (the empty string when the blend file
is not saved); `clean_name` stands for `bpy.path.clean_name`. -/
def batch_export_meshes (s : Scene) (directory blend_dirname : String)
    (freeze_locations : Bool) (file_type : FileType)
    ( mesh_name_prefix : String) (clean_name : String → String) : BatchResult :=
  let basedir := if directory = "" then blend_dirname else directory
  if basedir = "" then
    { scene := s, trace := [], error := some "Blend file is not saved" }
  else
    let obj_active := s.active
    let selection := selectedIndices s
    let s1 := deselectAll s
    let st := selection.foldl
      (processObj freeze_locations file_type mesh_name_prefix basedir clean_name)
      (s1, [])
    let s3 := { st.1 with active := obj_active }
    let s4 := selection.foldl (fun t i => setSel t i true) s3
    { scene := s4, trace := st.2, error := none }

/-- The result of one invocation of `BatchExport.execute`: the final scene,
the exporter-call trace, whether the "Please select a valid path" warning
was reported, and the message of a propagated exception if any (`none`
means the operator returned `{'FINISHED'}`). -/
structure ExecResult where
  scene : Scene
  trace : List (ExporterCall × Scene)
  warned : Bool
  error : Option String
deriving DecidableEq, Repr

namespace BatchExport

/-- `BatchExport.execute` (lines 62–74): strip the file part from
`self.properties.filepath`, then either report a warning (when
`os.path.isdir` rejects the result) or run `batch_export_meshes`.  `isdir`
stands for `os.path.isdir`. -/
def execute (filepath : String) (isdir : String → Bool) (s : Scene)
    (blend_dirname : String) (freeze_locations : Bool) (file_type : FileType)
    ( mesh_name_prefix : String) (clean_name : String → String) : ExecResult :=
  let directory := strip_file_part filepath
  if isdir directory then
    let r := batch_export_meshes s directory blend_dirname freeze_locations
      file_type mesh_name_prefix clean_name
    { scene := r.scene, trace := r.trace, warned := false, error := r.error }
  else
    { scene := s, trace := [], warned := true, error := none }

end BatchExport

/-! ## Basic lemmas about the scene operations -/

/-- An update writing back the object's own selection flag is the identity. -/
theorem SceneObj.update_selected_self (o : SceneObj) :
    ({ o with selected := o.selected } : SceneObj) = o := by
  cases o; rfl

/-- An update writing back the object's own location is the identity. -/
theorem SceneObj.update_loc_self (o : SceneObj) :
    ({ o with loc := o.loc } : SceneObj) = o := by
  cases o; rfl

/-- Writing the element a list already holds at an index leaves the list
unchanged. -/
theorem list_set_getElem?_self {α : Type} :
    ∀ (l : List α) (i : Nat) (a : α), l[i]? = some a → l.set i a = l
  | [], _, _, h => by simp at h
  | b :: bs, 0, a, h => by
    simp only [List.getElem?_cons_zero, Option.some.injEq] at h
    simp [h]
  | b :: bs, i + 1, a, h => by
    simp only [List.getElem?_cons_succ] at h
    simp [List.set, list_set_getElem?_self bs i a h]

theorem modifyObj_objs_getElem? (s : Scene) (i : Nat) (f : SceneObj → SceneObj) (j : Nat) :
    (modifyObj s i f).objs[j]? = if j = i then (s.objs[i]?).map f else s.objs[j]? := by
  by_cases hji : j = i
  · subst hji
    cases h : s.objs[j]? with
    | none => simp [modifyObj, h]
    | some o =>
      have hlen : j < s.objs.length := (List.getElem?_eq_some.mp h).1
      simp [modifyObj, h, List.getElem?_set, hlen]
  · cases h : s.objs[i]? with
    | none => simp [modifyObj, h, hji]
    | some o => simp [modifyObj, h, List.getElem?_set, hji, Ne.symm hji]

theorem modifyObj_active (s : Scene) (i : Nat) (f : SceneObj → SceneObj) :
    (modifyObj s i f).active = s.active := by
  unfold modifyObj
  split <;> rfl

theorem setSel_active (s : Scene) (i : Nat) (b : Bool) :
    (setSel s i b).active = s.active :=
  modifyObj_active s i _

theorem deselectAll_objs_getElem? (s : Scene) (j : Nat) :
    (deselectAll s).objs[j]? = (s.objs[j]?).map (fun o => { o with selected := false }) := by
  simp [deselectAll, List.getElem?_map]

/-- The scene state only selected-flag-cleared objects. -/
def allDeselected (s : Scene) : Prop :=
  ∀ (j : Nat) (o : SceneObj), s.objs[j]? = some o → o.selected = false

theorem allDeselected_deselectAll (s : Scene) : allDeselected (deselectAll s) := by
  intro j o h
  rw [deselectAll_objs_getElem?] at h
  cases h' : s.objs[j]? with
  | none => rw [h'] at h; simp at h
  | some o' =>
    rw [h'] at h
    simp only [Option.map_some', Option.some.injEq] at h
    rw [← h]

theorem mem_selectedIndices (s : Scene) (i : Nat) :
    i ∈ selectedIndices s ↔ ∃ o, s.objs[i]? = some o ∧ o.selected = true := by
  unfold selectedIndices
  rw [List.mem_filter, List.mem_range]
  constructor
  · rintro ⟨hr, hp⟩
    cases h : s.objs[i]? with
    | none => rw [h] at hp; simp at hp
    | some o =>
      rw [h] at hp
      exact ⟨o, rfl, hp⟩
  · rintro ⟨o, h, hsel⟩
    refine ⟨(List.getElem?_eq_some.mp h).1, ?_⟩
    rw [h]
    exact hsel

/-- Two scenes with the same objects and the same active index are equal. -/
theorem Scene.eq_of_objs_active (s t : Scene) (h1 : s.objs = t.objs) (h2 : s.active = t.active) :
    s = t := by
  cases s; cases t
  cases h1; cases h2
  rfl

/-! ## Characterisation of the loop body -/

theorem processObj_getElem?_none (fr : Bool) (ft : FileType) (pre bd : String)
    (cn : String → String) (t : Scene) (tr : List (ExporterCall × Scene)) (i : Nat)
    (h : t.objs[i]? = none) :
    processObj fr ft pre bd cn (t, tr) i = (t, tr) := by
  simp [processObj, h]

theorem processObj_skip (fr : Bool) (ft : FileType) (pre bd : String)
    (cn : String → String) (t : Scene) (tr : List (ExporterCall × Scene)) (i : Nat)
    (o : SceneObj) (h : t.objs[i]? = some o)
    (hty : o.ty ≠ "MESH" ∧ o.ty ≠ "ARMATURE") :
    processObj fr ft pre bd cn (t, tr) i = (t, tr) := by
  simp [processObj, h, hty.1, hty.2]

theorem processObj_export (fr : Bool) (ft : FileType) (pre bd : String)
    (cn : String → String) (t : Scene) (tr : List (ExporterCall × Scene)) (i : Nat)
    (o : SceneObj) (h : t.objs[i]? = some o)
    (hty : ¬(o.ty ≠ "MESH" ∧ o.ty ≠ "ARMATURE")) :
    processObj fr ft pre bd cn (t, tr) i =
      ({ objs := t.objs.set i { o with selected := false }, active := some i },
       tr ++ [(mkCall ft (ospath_join bd (if pre ≠ "" then pre ++ cn o.name else cn o.name)),
               { objs := t.objs.set i
                   { o with selected := true, loc := if fr then ⟨0, 0, 0⟩ else o.loc },
                 active := some i })]) := by
  have hlen : i < t.objs.length := (List.getElem?_eq_some.mp h).1
  cases fr <;>
    simp [processObj, h, hty, setSel, setLoc, modifyObj, List.getElem?_set_self,
      List.length_set, hlen, List.set_set]

/-- One loop step on a fully deselected scene: the object list is unchanged
afterwards, and the trace either stays as it was (skipped object) or grows by
exactly the exporter event of the object at index `i`. -/
theorem processObj_step (fr : Bool) (ft : FileType) (pre bd : String)
    (cn : String → String) (t : Scene) (tr : List (ExporterCall × Scene)) (i : Nat)
    (hsel : allDeselected t) :
    (processObj fr ft pre bd cn (t, tr) i).1.objs = t.objs ∧
    ((processObj fr ft pre bd cn (t, tr) i).2 = tr ∨
      ∃ o : SceneObj, t.objs[i]? = some o ∧ (o.ty = "MESH" ∨ o.ty = "ARMATURE") ∧
        (processObj fr ft pre bd cn (t, tr) i).2 =
          tr ++ [(mkCall ft (ospath_join bd (if pre ≠ "" then pre ++ cn o.name else cn o.name)),
                  { objs := t.objs.set i
                      { o with selected := true, loc := if fr then ⟨0, 0, 0⟩ else o.loc },
                    active := some i })]) := by
  cases h : t.objs[i]? with
  | none =>
    rw [processObj_getElem?_none fr ft pre bd cn t tr i h]
    exact ⟨rfl, Or.inl rfl⟩
  | some o =>
    by_cases hty : o.ty ≠ "MESH" ∧ o.ty ≠ "ARMATURE"
    · rw [processObj_skip fr ft pre bd cn t tr i o h hty]
      exact ⟨rfl, Or.inl rfl⟩
    · rw [processObj_export fr ft pre bd cn t tr i o h hty]
      have hof : ({ o with selected := false } : SceneObj) = o := by
        rw [← hsel i o h]
      constructor
      · show t.objs.set i { o with selected := false } = t.objs
        rw [hof]
        exact list_set_getElem?_self t.objs i o h
      · refine Or.inr ⟨o, rfl, ?_, rfl⟩
        rcases not_and_or.mp hty with h1 | h1
        · exact Or.inl (not_not.mp h1)
        · exact Or.inr (not_not.mp h1)

/-- The full loop on a fully deselected scene: the object list is unchanged,
and every trace entry not already present beforehand is the exporter event of
an eligible object of the scene at one of the visited indices. -/
theorem foldl_processObj_spec (fr : Bool) (ft : FileType) (pre bd : String)
    (cn : String → String) :
    ∀ (ixs : List Nat) (t : Scene) (tr : List (ExporterCall × Scene)), allDeselected t →
      (ixs.foldl (processObj fr ft pre bd cn) (t, tr)).1.objs = t.objs ∧
      (∀ e ∈ (ixs.foldl (processObj fr ft pre bd cn) (t, tr)).2,
        e ∈ tr ∨ ∃ (i : Nat) (o : SceneObj), i ∈ ixs ∧ t.objs[i]? = some o ∧
          (o.ty = "MESH" ∨ o.ty = "ARMATURE") ∧
          e = (mkCall ft (ospath_join bd (if pre ≠ "" then pre ++ cn o.name else cn o.name)),
               { objs := t.objs.set i
                   { o with selected := true, loc := if fr then ⟨0, 0, 0⟩ else o.loc },
                 active := some i }))
  | [], t, tr, _ => ⟨rfl, fun _ he => Or.inl he⟩
  | a :: as, t, tr, hsel => by
    obtain ⟨hobjs, htr⟩ := processObj_step fr ft pre bd cn t tr a hsel
    have hsel' : allDeselected (processObj fr ft pre bd cn (t, tr) a).1 := by
      intro j o hj
      exact hsel j o (by rwa [hobjs] at hj)
    have ih := foldl_processObj_spec fr ft pre bd cn as
      (processObj fr ft pre bd cn (t, tr) a).1 (processObj fr ft pre bd cn (t, tr) a).2 hsel'
    have hfold : (a :: as).foldl (processObj fr ft pre bd cn) (t, tr)
        = as.foldl (processObj fr ft pre bd cn)
            ((processObj fr ft pre bd cn (t, tr) a).1, (processObj fr ft pre bd cn (t, tr) a).2) := by
      rw [List.foldl_cons]
    constructor
    · rw [hfold, ih.1, hobjs]
    · intro e he
      rw [hfold] at he
      rcases ih.2 e he with hmem | ⟨i, o, hi, ho, htyp, rfl⟩
      · -- the entry was already in the trace after the first step
        rcases htr with heq | ⟨o, ho, htyp, heq⟩
        · exact Or.inl (heq ▸ hmem)
        · rw [heq] at hmem
          rcases List.mem_append.mp hmem with hmem' | hmem'
          · exact Or.inl hmem'
          · rcases List.mem_singleton.mp hmem' with rfl
            exact Or.inr ⟨a, o, List.mem_cons_self a as, ho, htyp, rfl⟩
      · -- the entry comes from the rest of the loop
        rw [hobjs] at ho ⊢
        exact Or.inr ⟨i, o, List.mem_cons_of_mem a hi, ho, htyp, rfl⟩

/-! ## The re-selection loop (lines 141–142) -/

theorem foldl_setSel_true_active :
    ∀ (ixs : List Nat) (t : Scene),
      (ixs.foldl (fun u i => setSel u i true) t).active = t.active
  | [], _ => rfl
  | a :: as, t => by
    rw [List.foldl_cons, foldl_setSel_true_active as (setSel t a true), setSel_active]

theorem foldl_setSel_true_getElem? :
    ∀ (ixs : List Nat) (t : Scene) (j : Nat),
      (ixs.foldl (fun u i => setSel u i true) t).objs[j]? =
        if j ∈ ixs then (t.objs[j]?).map (fun o => { o with selected := true })
        else t.objs[j]?
  | [], t, j => by simp
  | a :: as, t, j => by
    rw [List.foldl_cons, foldl_setSel_true_getElem? as (setSel t a true) j]
    have hset : (setSel t a true).objs[j]? =
        if j = a then (t.objs[a]?).map (fun o => { o with selected := true })
        else t.objs[j]? := modifyObj_objs_getElem? t a _ j
    by_cases hja : j = a
    · subst hja
      by_cases hjas : j ∈ as
      · simp only [hjas, if_true, hset, if_pos rfl, List.mem_cons, true_or, if_true]
        cases t.objs[j]? <;> rfl
      · simp [hjas, hset, List.mem_cons]
    · by_cases hjas : j ∈ as
      · simp [hjas, hset, hja, List.mem_cons]
      · have : j ∉ (a :: as) := by
          simp [List.mem_cons, hja, hjas]
        simp [hjas, hset, hja, this]

/-- Re-selecting the original selection on top of a scene holding the
deselected objects and the restored active index yields back the original
scene exactly. -/
theorem restore_selection (s t : Scene)
    (hobjs : t.objs = (deselectAll s).objs) (hact : t.active = s.active) :
    (selectedIndices s).foldl (fun u i => setSel u i true) t = s := by
  apply Scene.eq_of_objs_active
  · apply List.ext_getElem?
    intro j
    rw [foldl_setSel_true_getElem?, hobjs]
    by_cases hj : j ∈ selectedIndices s
    · rw [if_pos hj, deselectAll_objs_getElem?]
      obtain ⟨o, ho, hosel⟩ := (mem_selectedIndices s j).mp hj
      rw [ho]
      simp only [Option.map_some', Option.some.injEq]
      rw [← hosel]
    · rw [if_neg hj, deselectAll_objs_getElem?]
      cases ho : s.objs[j]? with
      | none => rfl
      | some o =>
        have hosel : o.selected = false := by
          by_contra hne
          exact hj ((mem_selectedIndices s j).mpr
            ⟨o, ho, Bool.of_not_eq_false hne⟩)
        simp only [Option.map_some', Option.some.injEq]
        rw [← hosel]
  · rw [foldl_setSel_true_active, hact]

/-! ## Behaviour of `batch_export_meshes` as a whole -/

theorem BatchResult.eq_of_components (r1 r2 : BatchResult) (h1 : r1.scene = r2.scene)
    (h2 : r1.trace = r2.trace) (h3 : r1.error = r2.error) : r1 = r2 := by
  cases r1; cases r2
  cases h1; cases h2; cases h3
  rfl

theorem batch_export_meshes_error (s : Scene) (dir bd : String) (fr : Bool)
    (ft : FileType) (pre : String) (cn : String → String) :
    (batch_export_meshes s dir bd fr ft pre cn).error =
      if (if dir = "" then bd else dir) = "" then some "Blend file is not saved"
      else none := by
  by_cases hb : (if dir = "" then bd else dir) = ""
  · simp only [batch_export_meshes, if_pos hb]
  · simp only [batch_export_meshes, if_neg hb]

theorem batch_export_meshes_trace_eq (s : Scene) (dir bd : String) (fr : Bool)
    (ft : FileType) (pre : String) (cn : String → String)
    (hb : (if dir = "" then bd else dir) ≠ "") :
    (batch_export_meshes s dir bd fr ft pre cn).trace =
      ((selectedIndices s).foldl
        (processObj fr ft pre (if dir = "" then bd else dir) cn)
        (deselectAll s, [])).2 := by
  simp only [batch_export_meshes, if_neg hb]

theorem batch_export_meshes_trace_empty (s : Scene) (dir bd : String) (fr : Bool)
    (ft : FileType) (pre : String) (cn : String → String)
    (hb : (if dir = "" then bd else dir) = "") :
    (batch_export_meshes s dir bd fr ft pre cn).trace = [] := by
  simp only [batch_export_meshes, if_pos hb]

/-- The routine always hands back the scene it started from: on the abort
path it is untouched, and on the export path every location, selection flag
and the active index are restored. -/
theorem batch_export_meshes_scene_eq (s : Scene) (dir bd : String) (fr : Bool)
    (ft : FileType) (pre : String) (cn : String → String) :
    (batch_export_meshes s dir bd fr ft pre cn).scene = s := by
  by_cases hb : (if dir = "" then bd else dir) = ""
  · simp only [batch_export_meshes, if_pos hb]
  · simp only [batch_export_meshes, if_neg hb]
    apply restore_selection
    · exact (foldl_processObj_spec fr ft pre (if dir = "" then bd else dir) cn
        (selectedIndices s) (deselectAll s) [] (allDeselected_deselectAll s)).1
    · rfl

/-! ## Claim theorems -/

/-- **C1**: for every invocation of the batch export routine that runs to
completion, the set of selected objects and the active object after the
invocation equal those before it, for every file format and freeze-locations
value, including when the selection contains objects skipped for type. -/
theorem batch_preserves_selection_and_active (s : Scene) (dir bd : String)
    (fr : Bool) (ft : FileType) (pre : String) (cn : String → String)
    (_h : (batch_export_meshes s dir bd fr ft pre cn).error = none) :
    selectedIndices (batch_export_meshes s dir bd fr ft pre cn).scene
        = selectedIndices s ∧
    (batch_export_meshes s dir bd fr ft pre cn).scene.active = s.active := by
  rw [batch_export_meshes_scene_eq s dir bd fr ft pre cn]
  exact ⟨rfl, rfl⟩

/-- **C7**: called with an empty directory while the blend file is unsaved
(so the fallback directory is empty as well), the routine raises
"Blend file is not saved" before touching any object: the scene is unchanged
and no exporter is invoked. -/
theorem empty_directory_unsaved_blend_aborts (s : Scene) (fr : Bool)
    (ft : FileType) (pre : String) (cn : String → String) :
    batch_export_meshes s "" "" fr ft pre cn =
      { scene := s, trace := [], error := some "Blend file is not saved" } := rfl

/-- **C6**: when the resolved path is not an existing directory, the operator
reports the warning, never calls the batch export routine (scene untouched,
no exporter call), and still returns `{'FINISHED'}` (no exception). -/
theorem invalid_directory_warns_no_export (fp : String) (isdir : String → Bool)
    (s : Scene) (bd : String) (fr : Bool) (ft : FileType) (pre : String)
    (cn : String → String) (h : isdir (strip_file_part fp) = false) :
    BatchExport.execute fp isdir s bd fr ft pre cn =
      { scene := s, trace := [], warned := true, error := none } := by
  simp only [BatchExport.execute, h, Bool.false_eq_true, if_false]

/-- **C10**: provided `os.path.isdir` rejects the empty string (as Python's
does), any directory that passes the operator's validation is non-empty, so
the fallback to the blend file's directory is never taken on the operator's
path and the "Blend file is not saved" exception is unreachable: `execute`
never propagates an error. -/
theorem execute_never_hits_unsaved_branch (fp : String) (isdir : String → Bool)
    (s : Scene) (bd : String) (fr : Bool) (ft : FileType) (pre : String)
    (cn : String → String) (h : isdir "" = false) :
    (isdir (strip_file_part fp) = true → strip_file_part fp ≠ "") ∧
    (BatchExport.execute fp isdir s bd fr ft pre cn).error = none := by
  have hne : ∀ d : String, isdir d = true → d ≠ "" := by
    intro d hd hcontra
    rw [hcontra, h] at hd
    exact Bool.false_ne_true hd
  refine ⟨hne _, ?_⟩
  by_cases hd : isdir (strip_file_part fp) = true
  · have hdir : strip_file_part fp ≠ "" := hne _ hd
    simp only [BatchExport.execute, hd, if_true]
    rw [batch_export_meshes_error]
    rw [if_neg hdir]
    rw [if_neg hdir]
  · simp only [BatchExport.execute, hd, Bool.false_eq_true, if_false]

/-! ## Output-path helpers -/

/-- The file extension appended for each format by the `match` arms. -/
def extension : FileType → String
  | .FBX => ".fbx"
  | .OBJ => ".obj"
  | .GLTF => ".gltf"
  | .DAE => ".dae"

theorem mkCall_filepath (ft : FileType) (fn : String) :
    (mkCall ft fn).filepath = fn ++ extension ft := by
  cases ft <;> rfl

theorem extension_not_slash (ft : FileType) :
    startsWithSlash (extension ft) = false := by
  cases ft <;> rfl

theorem string_toList_append (a b : String) :
    (a ++ b).toList = a.toList ++ b.toList := rfl

theorem string_asString_toList (s : String) : s.toList.asString = s := rfl

theorem startsWithSlash_append (b c : String) (hc : startsWithSlash c = false) :
    startsWithSlash (b ++ c) = startsWithSlash b := by
  unfold startsWithSlash
  rw [string_toList_append]
  cases hb : b.toList with
  | nil =>
    rw [List.nil_append]
    unfold startsWithSlash at hc
    exact hc
  | cons ch rest => rfl

theorem ospath_join_append (a b c : String) (hc : startsWithSlash c = false) :
    ospath_join a b ++ c = ospath_join a (b ++ c) := by
  unfold ospath_join
  rw [startsWithSlash_append b c hc]
  by_cases h1 : startsWithSlash b = true
  · rw [if_pos h1, if_pos h1]
  · rw [if_neg h1, if_neg h1]
    by_cases h2 : (a = "" || endsWithSlash a) = true
    · rw [if_pos h2, if_pos h2, String.append_assoc]
    · rw [if_neg h2, if_neg h2, String.append_assoc, String.append_assoc]

theorem prefix_name_eq (pre n : String) :
    (if pre ≠ "" then pre ++ n else n) = pre ++ n := by
  by_cases h : pre = ""
  · subst h
    rw [if_neg (fun hne => hne rfl)]
    rfl
  · rw [if_pos h]

theorem deselectAll_loc (s : Scene) (j : Nat) :
    ((deselectAll s).objs[j]?).map SceneObj.loc = (s.objs[j]?).map SceneObj.loc := by
  rw [deselectAll_objs_getElem?]
  cases s.objs[j]? <;> rfl

/-- **C3**: with freeze-locations enabled, every exporter call sees the
active (exported) object at the origin; after each loop step — and at the
end — every object holds its original location again. -/
theorem freeze_locations_origin_at_export (s : Scene) (dir bd : String)
    (ft : FileType) (pre : String) (cn : String → String) :
    (∀ e ∈ (batch_export_meshes s dir bd true ft pre cn).trace,
        ∀ i : Nat, e.2.active = some i →
          (e.2.objs[i]?).map SceneObj.loc = some ⟨0, 0, 0⟩) ∧
    (∀ p : List Nat, p <+: selectedIndices s → ∀ j : Nat,
        ((p.foldl (processObj true ft pre (if dir = "" then bd else dir) cn)
            (deselectAll s, [])).1.objs[j]?).map SceneObj.loc
          = (s.objs[j]?).map SceneObj.loc) ∧
    (∀ j : Nat,
        ((batch_export_meshes s dir bd true ft pre cn).scene.objs[j]?).map SceneObj.loc
          = (s.objs[j]?).map SceneObj.loc) := by
  refine ⟨?_, ?_, ?_⟩
  · intro e he i hact
    by_cases hb : (if dir = "" then bd else dir) = ""
    · rw [batch_export_meshes_trace_empty s dir bd true ft pre cn hb] at he
      exact absurd he (List.not_mem_nil e)
    · rw [batch_export_meshes_trace_eq s dir bd true ft pre cn hb] at he
      rcases (foldl_processObj_spec true ft pre (if dir = "" then bd else dir) cn
          (selectedIndices s) (deselectAll s) [] (allDeselected_deselectAll s)).2
          e he with hmem | ⟨i0, o, _, ho, _, rfl⟩
      · exact absurd hmem (List.not_mem_nil e)
      · have hi : i = i0 := by simpa using hact.symm
        subst hi
        have hlen : i < (deselectAll s).objs.length := (List.getElem?_eq_some.mp ho).1
        show ((((deselectAll s).objs.set i _)[i]?).map SceneObj.loc) = _
        rw [List.getElem?_set_self hlen]
        rfl
  · intro p _ j
    rw [(foldl_processObj_spec true ft pre (if dir = "" then bd else dir) cn
      p (deselectAll s) [] (allDeselected_deselectAll s)).1]
    exact deselectAll_loc s j
  · intro j
    rw [batch_export_meshes_scene_eq s dir bd true ft pre cn]

/-- **C4**: every exporter call's output path is
`join(basedir, prefix ++ clean_name(obj.name) ++ extension)` for the object
being exported (the active object of the recorded scene); with an empty
prefix this is `join(basedir, clean_name(obj.name) ++ extension)` since
nothing is prepended. -/
theorem export_filename_prefix_clean_ext (s : Scene) (dir bd : String)
    (fr : Bool) (ft : FileType) (pre : String) (cn : String → String) :
    ∀ e ∈ (batch_export_meshes s dir bd fr ft pre cn).trace,
      ∃ (i : Nat) (o : SceneObj), e.2.active = some i ∧ e.2.objs[i]? = some o ∧
        ExporterCall.filepath e.1 =
          ospath_join (if dir = "" then bd else dir)
            (pre ++ cn o.name ++ extension ft) := by
  intro e he
  by_cases hb : (if dir = "" then bd else dir) = ""
  · rw [batch_export_meshes_trace_empty s dir bd fr ft pre cn hb] at he
    exact absurd he (List.not_mem_nil e)
  · rw [batch_export_meshes_trace_eq s dir bd fr ft pre cn hb] at he
    rcases (foldl_processObj_spec fr ft pre (if dir = "" then bd else dir) cn
        (selectedIndices s) (deselectAll s) [] (allDeselected_deselectAll s)).2
        e he with hmem | ⟨i, o, _, ho, _, rfl⟩
    · exact absurd hmem (List.not_mem_nil e)
    · have hlen : i < (deselectAll s).objs.length := (List.getElem?_eq_some.mp ho).1
      refine ⟨i, { o with selected := true, loc := if fr then ⟨0, 0, 0⟩ else o.loc },
        rfl, List.getElem?_set_self hlen, ?_⟩
      show (mkCall ft (ospath_join (if dir = "" then bd else dir)
        (if pre ≠ "" then pre ++ cn o.name else cn o.name))).filepath = _
      rw [mkCall_filepath, prefix_name_eq,
        ospath_join_append _ _ _ (extension_not_slash ft)]

/-- **C5**: with the DAE format the exporter invoked is the FBX exporter
(never a Collada exporter, which the call type does not even provide), and
its output path ends in ".dae". -/
theorem dae_uses_fbx_exporter (s : Scene) (dir bd : String) (fr : Bool)
    (pre : String) (cn : String → String) :
    ∀ e ∈ (batch_export_meshes s dir bd fr FileType.DAE pre cn).trace,
      ∃ p : String, e.1 = ExporterCall.fbx p true ∧ ∃ q : String, p = q ++ ".dae" := by
  intro e he
  by_cases hb : (if dir = "" then bd else dir) = ""
  · rw [batch_export_meshes_trace_empty s dir bd fr FileType.DAE pre cn hb] at he
    exact absurd he (List.not_mem_nil e)
  · rw [batch_export_meshes_trace_eq s dir bd fr FileType.DAE pre cn hb] at he
    rcases (foldl_processObj_spec fr FileType.DAE pre (if dir = "" then bd else dir) cn
        (selectedIndices s) (deselectAll s) [] (allDeselected_deselectAll s)).2
        e he with hmem | ⟨i, o, _, _, _, rfl⟩
    · exact absurd hmem (List.not_mem_nil e)
    · exact ⟨_, rfl, _, rfl⟩

/-- **C8**: with freeze-locations disabled no location is ever altered: the
scene recorded at each exporter call, the scene after each loop step, and
the final scene all hold exactly the original locations. -/
theorem no_freeze_locations_untouched (s : Scene) (dir bd : String)
    (ft : FileType) (pre : String) (cn : String → String) :
    (∀ e ∈ (batch_export_meshes s dir bd false ft pre cn).trace, ∀ j : Nat,
        (e.2.objs[j]?).map SceneObj.loc = (s.objs[j]?).map SceneObj.loc) ∧
    (∀ p : List Nat, p <+: selectedIndices s → ∀ j : Nat,
        ((p.foldl (processObj false ft pre (if dir = "" then bd else dir) cn)
            (deselectAll s, [])).1.objs[j]?).map SceneObj.loc
          = (s.objs[j]?).map SceneObj.loc) ∧
    (∀ j : Nat,
        ((batch_export_meshes s dir bd false ft pre cn).scene.objs[j]?).map SceneObj.loc
          = (s.objs[j]?).map SceneObj.loc) := by
  refine ⟨?_, ?_, ?_⟩
  · intro e he j
    by_cases hb : (if dir = "" then bd else dir) = ""
    · rw [batch_export_meshes_trace_empty s dir bd false ft pre cn hb] at he
      exact absurd he (List.not_mem_nil e)
    · rw [batch_export_meshes_trace_eq s dir bd false ft pre cn hb] at he
      rcases (foldl_processObj_spec false ft pre (if dir = "" then bd else dir) cn
          (selectedIndices s) (deselectAll s) [] (allDeselected_deselectAll s)).2
          e he with hmem | ⟨i, o, _, ho, _, rfl⟩
      · exact absurd hmem (List.not_mem_nil e)
      · have hlen : i < (deselectAll s).objs.length := (List.getElem?_eq_some.mp ho).1
        show ((((deselectAll s).objs.set i _)[j]?).map SceneObj.loc) = _
        by_cases hji : j = i
        · subst hji
          rw [List.getElem?_set_self hlen, ← deselectAll_loc s j, ho]
          rfl
        · rw [List.getElem?_set_ne (fun h => hji h.symm)]
          exact deselectAll_loc s j
  · intro p _ j
    rw [(foldl_processObj_spec false ft pre (if dir = "" then bd else dir) cn
      p (deselectAll s) [] (allDeselected_deselectAll s)).1]
    exact deselectAll_loc s j
  · intro j
    rw [batch_export_meshes_scene_eq s dir bd false ft pre cn]

/-- When every visited index holds an object of ineligible type, the loop is
a no-op on both the scene and the trace. -/
theorem foldl_processObj_skip_all (fr : Bool) (ft : FileType) (pre bd : String)
    (cn : String → String) :
    ∀ (ixs : List Nat) (t : Scene) (tr : List (ExporterCall × Scene)),
      (∀ i ∈ ixs, ∀ o : SceneObj, t.objs[i]? = some o →
        o.ty ≠ "MESH" ∧ o.ty ≠ "ARMATURE") →
      ixs.foldl (processObj fr ft pre bd cn) (t, tr) = (t, tr)
  | [], _, _, _ => rfl
  | a :: as, t, tr, h => by
    rw [List.foldl_cons]
    have hstep : processObj fr ft pre bd cn (t, tr) a = (t, tr) := by
      cases ha : t.objs[a]? with
      | none => exact processObj_getElem?_none fr ft pre bd cn t tr a ha
      | some o =>
        exact processObj_skip fr ft pre bd cn t tr a o ha
          (h a (List.mem_cons_self a as) o ha)
    rw [hstep]
    exact foldl_processObj_skip_all fr ft pre bd cn as t tr
      (fun i hi => h i (List.mem_cons_of_mem a hi))

/-- **C9**: a selection holding only non-mesh, non-armature objects produces
no exporter call, raises no error, and leaves the selection and the active
object exactly as they were. -/
theorem ineligible_selection_noop (s : Scene) (dir bd : String) (fr : Bool)
    (ft : FileType) (pre : String) (cn : String → String)
    (hty : ∀ o ∈ s.objs, o.selected = true → o.ty ≠ "MESH" ∧ o.ty ≠ "ARMATURE")
    (hdir : (if dir = "" then bd else dir) ≠ "") :
    batch_export_meshes s dir bd fr ft pre cn =
      { scene := s, trace := [], error := none } := by
  have hskip : ∀ i ∈ selectedIndices s, ∀ o : SceneObj,
      (deselectAll s).objs[i]? = some o → o.ty ≠ "MESH" ∧ o.ty ≠ "ARMATURE" := by
    intro i hi o ho
    rw [deselectAll_objs_getElem?] at ho
    obtain ⟨o', ho', hsel'⟩ := (mem_selectedIndices s i).mp hi
    rw [ho'] at ho
    simp only [Option.map_some', Option.some.injEq] at ho
    have hmem : o' ∈ s.objs := List.getElem?_mem ho'
    have := hty o' hmem hsel'
    rw [← ho]
    exact this
  apply BatchResult.eq_of_components
  · exact batch_export_meshes_scene_eq s dir bd fr ft pre cn
  · rw [batch_export_meshes_trace_eq s dir bd fr ft pre cn hdir]
    rw [foldl_processObj_skip_all fr ft pre (if dir = "" then bd else dir) cn
      (selectedIndices s) (deselectAll s) [] hskip]
  · rw [batch_export_meshes_error s dir bd fr ft pre cn, if_neg hdir]

/-! ## The directory-stripping step of the operator (claim C2) -/

theorem list_rfind_eq_none {c : Char} :
    ∀ l : List Char, c ∉ l → list_rfind l c = none
  | [], _ => rfl
  | a :: as, h => by
    have h1 : c ∉ as := fun hmem => h (List.mem_cons_of_mem a hmem)
    have h2 : ¬(a = c) := fun heq => h (heq ▸ List.mem_cons_self a as)
    unfold list_rfind
    rw [list_rfind_eq_none as h1]
    simp only [if_neg h2]

theorem list_rfind_append_last (c : Char) :
    ∀ a b : List Char, c ∉ b → list_rfind (a ++ c :: b) c = some a.length
  | [], b, hb => by
    show list_rfind (c :: b) c = some 0
    unfold list_rfind
    rw [list_rfind_eq_none b hb]
    simp
  | x :: xs, b, hb => by
    show list_rfind (x :: (xs ++ c :: b)) c = some (xs.length + 1)
    unfold list_rfind
    rw [list_rfind_append_last c xs b hb]

/-- **C2, counterexample**: the path of the spec's example contains no
backslash, so `rfind('\\')` returns -1 and nothing is stripped: the
effective directory stays `/out/ignored_filename.fbx`, not `/out`. -/
theorem forward_slash_not_stripped :
    strip_file_part "/out/ignored_filename.fbx" = "/out/ignored_filename.fbx" ∧
    strip_file_part "/out/ignored_filename.fbx" ≠ "/out" := by
  constructor
  · decide
  · decide

/-- **C2, amended**: the trigger strips the trailing component only at the
last backslash (`rfind('\\')`): for a backslash-separated path
`a ++ "\" ++ b` (with `b` backslash-free) the effective directory is `a`,
and a path containing no backslash at all — such as the forward-slash
example `/out/ignored_filename.fbx` — is left entirely unchanged. -/
theorem strip_file_part_backslash_semantics :
    (∀ a b : String, '\\' ∉ b.toList → strip_file_part (a ++ "\\" ++ b) = a) ∧
    (∀ d : String, '\\' ∉ d.toList → strip_file_part d = d) := by
  constructor
  · intro a b hb
    have h1 : (a ++ "\\" ++ b).toList = a.toList ++ '\\' :: b.toList := by
      rw [string_toList_append, string_toList_append, List.append_assoc]
      rfl
    unfold strip_file_part
    rw [h1, list_rfind_append_last '\\' a.toList b.toList hb]
    show ((a.toList ++ '\\' :: b.toList).take a.toList.length).asString = a
    rw [List.take_left]
    exact string_asString_toList a
  · intro d hd
    unfold strip_file_part
    rw [list_rfind_eq_none d.toList hd]

/-! ## Concrete instantiations -/

/-- A scene with a selected mesh (active) and a selected light. -/
def sceneW : Scene :=
  { objs := [{ name := "Cube", ty := "MESH", loc := ⟨1, 2, 3⟩, selected := true },
             { name := "Lamp", ty := "LIGHT", loc := ⟨4, 5, 6⟩, selected := true }],
    active := some 0 }

/-- A scene whose only selected object is a light. -/
def sceneLight : Scene :=
  { objs := [{ name := "Lamp", ty := "LIGHT", loc := ⟨4, 5, 6⟩, selected := true }],
    active := some 0 }

/-- The exporter event `sceneW` produces with format FBX, prefix `SM_` and
freeze-locations on. -/
def eventFreeze : ExporterCall × Scene :=
  (ExporterCall.fbx "/out/SM_Cube.fbx" true,
   { objs := [{ name := "Cube", ty := "MESH", loc := ⟨0, 0, 0⟩, selected := true },
              { name := "Lamp", ty := "LIGHT", loc := ⟨4, 5, 6⟩, selected := false }],
     active := some 0 })

/-- The exporter event `sceneW` produces with format DAE, prefix `SM_` and
freeze-locations on. -/
def eventDae : ExporterCall × Scene :=
  (ExporterCall.fbx "/out/SM_Cube.dae" true,
   { objs := [{ name := "Cube", ty := "MESH", loc := ⟨0, 0, 0⟩, selected := true },
              { name := "Lamp", ty := "LIGHT", loc := ⟨4, 5, 6⟩, selected := false }],
     active := some 0 })

/-- The exporter event `sceneW` produces with format FBX, prefix `SM_` and
freeze-locations off. -/
def eventNoFreeze : ExporterCall × Scene :=
  (ExporterCall.fbx "/out/SM_Cube.fbx" true,
   { objs := [{ name := "Cube", ty := "MESH", loc := ⟨1, 2, 3⟩, selected := true },
              { name := "Lamp", ty := "LIGHT", loc := ⟨4, 5, 6⟩, selected := false }],
     active := some 0 })

theorem batch_preserves_selection_and_active_witness :
    (batch_export_meshes sceneW "/out" "" true FileType.FBX "SM_" id).error = none ∧
    (selectedIndices (batch_export_meshes sceneW "/out" "" true FileType.FBX "SM_" id).scene
        = selectedIndices sceneW ∧
      (batch_export_meshes sceneW "/out" "" true FileType.FBX "SM_" id).scene.active
        = sceneW.active) :=
  ⟨by decide,
   batch_preserves_selection_and_active sceneW "/out" "" true FileType.FBX "SM_" id
     (by decide)⟩

theorem strip_file_part_backslash_semantics_witness :
    '\\' ∉ "ignored_filename.fbx".toList ∧
    strip_file_part ("\\out" ++ "\\" ++ "ignored_filename.fbx") = "\\out" :=
  ⟨by decide,
   strip_file_part_backslash_semantics.1 "\\out" "ignored_filename.fbx" (by decide)⟩

theorem freeze_locations_origin_at_export_witness :
    (eventFreeze ∈ (batch_export_meshes sceneW "/out" "" true FileType.FBX "SM_" id).trace ∧
      eventFreeze.2.active = some 0) ∧
    (eventFreeze.2.objs[0]?).map SceneObj.loc = some ⟨0, 0, 0⟩ :=
  ⟨⟨by decide, by decide⟩,
   (freeze_locations_origin_at_export sceneW "/out" "" FileType.FBX "SM_" id).1
     eventFreeze (by decide) 0 (by decide)⟩

theorem export_filename_prefix_clean_ext_witness :
    eventFreeze ∈ (batch_export_meshes sceneW "/out" "" true FileType.FBX "SM_" id).trace ∧
    ∃ (i : Nat) (o : SceneObj), eventFreeze.2.active = some i ∧
      eventFreeze.2.objs[i]? = some o ∧
      ExporterCall.filepath eventFreeze.1 =
        ospath_join (if ("/out" : String) = "" then ("" : String) else "/out")
          ("SM_" ++ id o.name ++ extension FileType.FBX) :=
  ⟨by decide,
   export_filename_prefix_clean_ext sceneW "/out" "" true FileType.FBX "SM_" id
     eventFreeze (by decide)⟩

theorem dae_uses_fbx_exporter_witness :
    eventDae ∈ (batch_export_meshes sceneW "/out" "" true FileType.DAE "SM_" id).trace ∧
    ∃ p : String, eventDae.1 = ExporterCall.fbx p true ∧ ∃ q : String, p = q ++ ".dae" :=
  ⟨by decide,
   dae_uses_fbx_exporter sceneW "/out" "" true "SM_" id eventDae (by decide)⟩

theorem invalid_directory_warns_no_export_witness :
    (fun _ : String => false) (strip_file_part "/out/ignored_filename.fbx") = false ∧
    BatchExport.execute "/out/ignored_filename.fbx" (fun _ => false) sceneW "" true
        FileType.FBX "SM_" id =
      { scene := sceneW, trace := [], warned := true, error := none } :=
  ⟨rfl,
   invalid_directory_warns_no_export "/out/ignored_filename.fbx" (fun _ => false)
     sceneW "" true FileType.FBX "SM_" id rfl⟩

theorem no_freeze_locations_untouched_witness :
    eventNoFreeze ∈ (batch_export_meshes sceneW "/out" "" false FileType.FBX "SM_" id).trace ∧
    (eventNoFreeze.2.objs[0]?).map SceneObj.loc = (sceneW.objs[0]?).map SceneObj.loc :=
  ⟨by decide,
   (no_freeze_locations_untouched sceneW "/out" "" FileType.FBX "SM_" id).1
     eventNoFreeze (by decide) 0⟩

theorem ineligible_selection_noop_witness :
    (∀ o ∈ sceneLight.objs, o.selected = true → o.ty ≠ "MESH" ∧ o.ty ≠ "ARMATURE") ∧
    ((if ("/out" : String) = "" then ("" : String) else "/out") ≠ "") ∧
    batch_export_meshes sceneLight "/out" "" true FileType.FBX "SM_" id =
      { scene := sceneLight, trace := [], error := none } :=
  ⟨by decide, by decide,
   ineligible_selection_noop sceneLight "/out" "" true FileType.FBX "SM_" id
     (by decide) (by decide)⟩

theorem execute_never_hits_unsaved_branch_witness :
    (fun d : String => d != "") "" = false ∧
    (((fun d : String => d != "") (strip_file_part "/out") = true →
        strip_file_part "/out" ≠ "") ∧
      (BatchExport.execute "/out" (fun d => d != "") sceneW "" true
        FileType.FBX "SM_" id).error = none) :=
  ⟨by decide,
   execute_never_hits_unsaved_branch "/out" (fun d => d != "") sceneW "" true
     FileType.FBX "SM_" id (by decide)⟩
